import Mathlib

/-!
Shallow embedding of the AQI derivation and classification logic of the
aqi-map-visualizer repository.

JavaScript numbers are modelled as exact rationals (ℚ); `Math.round` is
modelled as `jsRound` (floor of x + 1/2, JavaScript's round-half-towards
positive-infinity).  Values that may be `null`/`undefined` are modelled with
explicit sum types so the distinct JavaScript behaviours of `null` and
`undefined` in `<=` comparisons are preserved.
-/

/-- JavaScript's Math.round: round half towards +∞, i.e. ⌊x + 1/2⌋. -/
def jsRound (q : ℚ) : ℤ := ⌊q + 1/2⌋

/-- The linear interpolation of server line 745:
`((iHi - iLo) / (bpHi - bpLo)) * (pm25 - bpLo) + iLo`. -/
def lerp (bpLo bpHi iLo iHi c : ℚ) : ℚ :=
  ((iHi - iLo) / (bpHi - bpLo)) * (c - bpLo) + iLo

/-- The numeric core of `pm25ToAqi` (server lines 727-746): the if-chain of
band selection followed by interpolation and rounding, applied once the input
has been converted to a number that is not NaN. -/
def aqiVal (pm25 : ℚ) : ℤ :=
  if pm25 ≤ 12 then jsRound (lerp 0 12 0 50 pm25)
  else if pm25 ≤ 35.4 then jsRound (lerp 12.1 35.4 51 100 pm25)
  else if pm25 ≤ 55.4 then jsRound (lerp 35.5 55.4 101 150 pm25)
  else if pm25 ≤ 150.4 then jsRound (lerp 55.5 150.4 151 200 pm25)
  else if pm25 ≤ 250.4 then jsRound (lerp 150.5 250.4 201 300 pm25)
  else if pm25 ≤ 500.4 then jsRound (lerp 250.5 500.4 301 500 pm25)
  else 500

/-- The argument of `pm25ToAqi` after JavaScript's `Number` conversion:
`absent` covers `null` and `undefined` (line 723), `nan` covers every raw
value whose `Number` conversion is NaN (line 725), and `val q` a raw value
whose `Number` conversion is the number `q`. -/
inductive PmInput where
  | absent
  | nan
  | val (q : ℚ)
deriving DecidableEq

/-- Function `pm25ToAqi` (server lines 722-747): `null` on absent or unparseable
input, otherwise the banded interpolation `aqiVal`. -/
def pm25ToAqi : PmInput → Option ℤ
  | .absent => none
  | .nan => none
  | .val q => some (aqiVal q)

/-- A JavaScript value reaching the AQI colour/label helpers: a number,
`null`, or `undefined`. -/
inductive AqiInput where
  | null
  | undefined
  | num (q : ℚ)
deriving DecidableEq

/-- JavaScript's `x <= k` for `x` a number, `null`, or `undefined`:
`null` coerces to 0, `undefined` makes the comparison false. -/
def jsLe (a : AqiInput) (k : ℚ) : Bool :=
  match a with
  | .null => decide ((0 : ℚ) ≤ k)
  | .undefined => false
  | .num q => decide (q ≤ k)

namespace Server

/-- Server `getAqiColor` (lines 711-718): threshold scan with no null
guard, so `null` falls through the JavaScript comparisons as 0. -/
def getAqiColor (a : AqiInput) : String :=
  if jsLe a 50 then "#22c55e"
  else if jsLe a 100 then "#eab308"
  else if jsLe a 150 then "#f97316"
  else if jsLe a 200 then "#ef4444"
  else if jsLe a 300 then "#a855f7"
  else "#9f1239"

/-- The per-station `color` field built by the `/api/aqi` transform
(line 822): `aqi !== null ? getAqiColor(aqi) : '#6b7280'`. -/
def stationColor (aqi : Option ℚ) : String :=
  match aqi with
  | some q => getAqiColor (.num q)
  | none => "#6b7280"

end Server

namespace MapComponent

/-- Function `getAqiColor` of MapComponent.jsx (lines 8-16): guards both `null`
and `undefined`. -/
def getAqiColor (a : AqiInput) : String :=
  if a = .null ∨ a = .undefined then "#6b7280"
  else if jsLe a 50 then "#22c55e"
  else if jsLe a 100 then "#eab308"
  else if jsLe a 150 then "#f97316"
  else if jsLe a 200 then "#ef4444"
  else if jsLe a 300 then "#a855f7"
  else "#9f1239"

/-- Function `getAqiLabel` of MapComponent.jsx (lines 18-26): guards only `null`,
so `undefined` falls through every comparison. -/
def getAqiLabel (a : AqiInput) : String :=
  if a = .null then "No Data"
  else if jsLe a 50 then "Good"
  else if jsLe a 100 then "Moderate"
  else if jsLe a 150 then "Unhealthy for Sensitive Groups"
  else if jsLe a 200 then "Unhealthy"
  else if jsLe a 300 then "Very Unhealthy"
  else "Hazardous"

end MapComponent

namespace Sidebar

/-- Function `getAqiHex` of the sidebar component (part_003 lines 111-119). -/
def getAqiHex (a : AqiInput) : String :=
  if a = .null ∨ a = .undefined then "#6b7280"
  else if jsLe a 50 then "#22c55e"
  else if jsLe a 100 then "#eab308"
  else if jsLe a 150 then "#f97316"
  else if jsLe a 200 then "#ef4444"
  else if jsLe a 300 then "#a855f7"
  else "#9f1239"

/-- Function `getAqiLabel` of the sidebar component (part_003 lines 121-129). -/
def getAqiLabel (a : AqiInput) : String :=
  if a = .null ∨ a = .undefined then "No Data"
  else if jsLe a 50 then "Good"
  else if jsLe a 100 then "Moderate"
  else if jsLe a 150 then "Unhealthy for Sensitive Groups"
  else if jsLe a 200 then "Unhealthy"
  else if jsLe a 300 then "Very Unhealthy"
  else "Hazardous"

end Sidebar

namespace StationPanel

/-- Function `getAqiColor` of the station panel component (part_004 lines 5-13). -/
def getAqiColor (a : AqiInput) : String :=
  if a = .null ∨ a = .undefined then "#6b7280"
  else if jsLe a 50 then "#22c55e"
  else if jsLe a 100 then "#eab308"
  else if jsLe a 150 then "#f97316"
  else if jsLe a 200 then "#ef4444"
  else if jsLe a 300 then "#a855f7"
  else "#9f1239"

/-- Function `getAqiLabel` of the station panel component (part_004 lines 15-23). -/
def getAqiLabel (a : AqiInput) : String :=
  if a = .null ∨ a = .undefined then "No Data"
  else if jsLe a 50 then "Good"
  else if jsLe a 100 then "Moderate"
  else if jsLe a 150 then "Unhealthy for Sensitive Groups"
  else if jsLe a 200 then "Unhealthy"
  else if jsLe a 300 then "Very Unhealthy"
  else "Hazardous"

end StationPanel

/-- Lower concentration bounds of the six breakpoint bands of the spec table. -/
def concLo : Fin 6 → ℚ
  | 0 => 0
  | 1 => 12.1
  | 2 => 35.5
  | 3 => 55.5
  | 4 => 150.5
  | 5 => 250.5

/-- Upper concentration bounds of the six breakpoint bands of the spec table. -/
def concHi : Fin 6 → ℚ
  | 0 => 12
  | 1 => 35.4
  | 2 => 55.4
  | 3 => 150.4
  | 4 => 250.4
  | 5 => 500.4

/-- Lower index bounds of the six bands (also the severity band lower bounds). -/
def idxLo : Fin 6 → ℤ
  | 0 => 0
  | 1 => 51
  | 2 => 101
  | 3 => 151
  | 4 => 201
  | 5 => 301

/-- Upper index bounds of the six bands (also the severity band upper bounds). -/
def idxHi : Fin 6 → ℤ
  | 0 => 50
  | 1 => 100
  | 2 => 150
  | 3 => 200
  | 4 => 300
  | 5 => 500

/-- The six severity category names, in band order. -/
def severityName : Fin 6 → String
  | 0 => "Good"
  | 1 => "Moderate"
  | 2 => "Unhealthy for Sensitive Groups"
  | 3 => "Unhealthy"
  | 4 => "Very Unhealthy"
  | 5 => "Hazardous"

/-- The fixed category-to-colour pairing stated by the spec. -/
def pairedColor : String → String
  | "Good" => "#22c55e"
  | "Moderate" => "#eab308"
  | "Unhealthy for Sensitive Groups" => "#f97316"
  | "Unhealthy" => "#ef4444"
  | "Very Unhealthy" => "#a855f7"
  | "Hazardous" => "#9f1239"
  | "No Data" => "#6b7280"
  | _ => ""

/-- The input to the detail-endpoint fallback after the optional chain
`iaqi.pm25?.v ?? null`, encoded as the `pm25ToAqi` argument. -/
def encodePm : Option ℚ → PmInput
  | none => .absent
  | some p => .val p

/-- The upstream `aqi` field of a WAQI feed response: a number, the string
`'-'`, `null`, `undefined`, or some other string. -/
inductive UpstreamAqi where
  | num (q : ℚ)
  | dash
  | null
  | undefined
  | str (s : String)
deriving DecidableEq

/-- The AQI resolution of the `/api/aqi/:stationId` handler (server lines
857-864): prefer a numeric upstream `d.aqi`; fall back to `pm25ToAqi` only
when `d.aqi` is `'-'`, `null` or `undefined` and `pm25` is non-null.  The
second component records whether `pm25ToAqi` was invoked. -/
def resolveDetailAqi (daqi : UpstreamAqi) (pm25 : Option ℚ) : Option ℚ × Bool :=
  let aqi : Option ℚ := match daqi with
    | .num q => some q
    | _ => none
  if aqi = none ∧ (daqi = .dash ∨ daqi = .null ∨ daqi = .undefined) ∧ pm25 ≠ none then
    match pm25ToAqi (encodePm pm25) with
    | some d => (some (d : ℚ), true)
    | none => (aqi, true)
  else (aqi, false)

/-- The per-station AQI resolution of the `/api/aqi` transform (server lines
787-814): `mapAqi` is the `parseInt` of the map payload's `aqi` (`none` when
NaN); when it is `none`, the detail feed is consulted (`feedOk` is false when
the feed call fails or its status is not ok); a numeric feed `aqi` is used
as-is, and otherwise `pm25ToAqi` is invoked on `iaqi.pm25?.v ?? null`.  The
second component records whether `pm25ToAqi` was invoked. -/
def resolveMapAqi (mapAqi : Option ℤ) (feedOk : Bool) (feedAqi : UpstreamAqi)
    (feedPm25 : Option ℚ) : Option ℚ × Bool :=
  let aqi : Option ℚ := match mapAqi with
    | some n => some (n : ℚ)
    | none => none
  if aqi = none then
    if feedOk then
      match feedAqi with
      | .num q => (some q, false)
      | _ =>
        match pm25ToAqi (encodePm feedPm25) with
        | some d => (some (d : ℚ), true)
        | none => (aqi, true)
    else (aqi, false)
  else (aqi, false)

/-! ### Arithmetic helper lemmas about `jsRound` and `lerp` -/

theorem jsRound_mono {a b : ℚ} (h : a ≤ b) : jsRound a ≤ jsRound b :=
  Int.floor_mono (by linarith)

theorem le_jsRound {z : ℤ} {a : ℚ} (h : (z : ℚ) - 1/2 ≤ a) : z ≤ jsRound a := by
  unfold jsRound
  rw [Int.le_floor]
  linarith

theorem jsRound_le {z : ℤ} {a : ℚ} (h : a < (z : ℚ) + 1/2) : jsRound a ≤ z := by
  unfold jsRound
  have hlt : ⌊a + 1/2⌋ < z + 1 := by
    rw [Int.floor_lt]
    push_cast
    linarith
  omega

theorem lerp_mono {bpLo bpHi iLo iHi : ℚ} (hb : bpLo < bpHi) (hi : iLo ≤ iHi)
    {c1 c2 : ℚ} (h : c1 ≤ c2) :
    lerp bpLo bpHi iLo iHi c1 ≤ lerp bpLo bpHi iLo iHi c2 := by
  unfold lerp
  have hk : 0 ≤ (iHi - iLo) / (bpHi - bpLo) := div_nonneg (by linarith) (by linarith)
  have := mul_le_mul_of_nonneg_left (sub_le_sub_right h bpLo) hk
  linarith

/-! ### Per-band bounds for `aqiVal` -/

theorem aqiVal_band1 {c : ℚ} (h0 : 0 ≤ c) (h : c ≤ 12) :
    0 ≤ aqiVal c ∧ aqiVal c ≤ 50 := by
  unfold aqiVal
  rw [if_pos h]
  constructor
  · apply le_jsRound
    unfold lerp
    push_cast
    norm_num
    linarith
  · apply jsRound_le
    unfold lerp
    push_cast
    norm_num
    linarith

theorem aqiVal_band2 {c : ℚ} (h1 : 12 < c) (h : c ≤ 35.4) :
    51 ≤ aqiVal c ∧ aqiVal c ≤ 100 := by
  unfold aqiVal
  rw [if_neg (by linarith), if_pos h]
  constructor
  · apply le_jsRound
    unfold lerp
    push_cast
    norm_num
    linarith
  · apply jsRound_le
    unfold lerp
    push_cast
    norm_num
    linarith

theorem aqiVal_band3 {c : ℚ} (h1 : (35.4 : ℚ) < c) (h : c ≤ 55.4) :
    101 ≤ aqiVal c ∧ aqiVal c ≤ 150 := by
  unfold aqiVal
  rw [if_neg (by linarith), if_neg (by linarith), if_pos h]
  constructor
  · apply le_jsRound
    unfold lerp
    push_cast
    norm_num
    linarith
  · apply jsRound_le
    unfold lerp
    push_cast
    norm_num
    linarith

theorem aqiVal_band4 {c : ℚ} (h1 : (55.4 : ℚ) < c) (h : c ≤ 150.4) :
    151 ≤ aqiVal c ∧ aqiVal c ≤ 200 := by
  unfold aqiVal
  rw [if_neg (by linarith), if_neg (by linarith), if_neg (by linarith), if_pos h]
  constructor
  · apply le_jsRound
    unfold lerp
    push_cast
    norm_num
    linarith
  · apply jsRound_le
    unfold lerp
    push_cast
    norm_num
    linarith

theorem aqiVal_band5 {c : ℚ} (h1 : (150.4 : ℚ) < c) (h : c ≤ 250.4) :
    201 ≤ aqiVal c ∧ aqiVal c ≤ 300 := by
  unfold aqiVal
  rw [if_neg (by linarith), if_neg (by linarith), if_neg (by linarith),
    if_neg (by linarith), if_pos h]
  constructor
  · apply le_jsRound
    unfold lerp
    push_cast
    norm_num
    linarith
  · apply jsRound_le
    unfold lerp
    push_cast
    norm_num
    linarith

theorem aqiVal_band6 {c : ℚ} (h1 : (250.4 : ℚ) < c) (h : c ≤ 500.4) :
    301 ≤ aqiVal c ∧ aqiVal c ≤ 500 := by
  unfold aqiVal
  rw [if_neg (by linarith), if_neg (by linarith), if_neg (by linarith),
    if_neg (by linarith), if_neg (by linarith), if_pos h]
  constructor
  · apply le_jsRound
    unfold lerp
    push_cast
    norm_num
    linarith
  · apply jsRound_le
    unfold lerp
    push_cast
    norm_num
    linarith

theorem aqiVal_clamp {c : ℚ} (h : (500.4 : ℚ) < c) : aqiVal c = 500 := by
  unfold aqiVal
  rw [if_neg (by linarith), if_neg (by linarith), if_neg (by linarith),
    if_neg (by linarith), if_neg (by linarith), if_neg (by linarith)]

theorem aqiVal_bounds {c : ℚ} (h0 : 0 ≤ c) : 0 ≤ aqiVal c ∧ aqiVal c ≤ 500 := by
  rcases le_or_lt c 12 with h | h
  · have := aqiVal_band1 h0 h
    omega
  rcases le_or_lt c 35.4 with h2 | h2
  · have := aqiVal_band2 h h2
    omega
  rcases le_or_lt c 55.4 with h3 | h3
  · have := aqiVal_band3 h2 h3
    omega
  rcases le_or_lt c 150.4 with h4 | h4
  · have := aqiVal_band4 h3 h4
    omega
  rcases le_or_lt c 250.4 with h5 | h5
  · have := aqiVal_band5 h4 h5
    omega
  rcases le_or_lt c 500.4 with h6 | h6
  · have := aqiVal_band6 h5 h6
    omega
  · rw [aqiVal_clamp h6]
    omega

theorem aqiVal_mono {c1 c2 : ℚ} (h0 : 0 ≤ c1) (h : c1 ≤ c2) : aqiVal c1 ≤ aqiVal c2 := by
  rcases le_or_lt c2 12 with H1 | H1
  · unfold aqiVal
    rw [if_pos (le_trans h H1), if_pos H1]
    exact jsRound_mono (lerp_mono (by norm_num) (by norm_num) h)
  rcases le_or_lt c2 35.4 with H2 | H2
  · rcases le_or_lt c1 12 with G | G
    · have hb1 := (aqiVal_band1 h0 G).2
      have hb2 := (aqiVal_band2 H1 H2).1
      omega
    · unfold aqiVal
      rw [if_neg (by linarith), if_pos (le_trans h H2), if_neg (by linarith), if_pos H2]
      exact jsRound_mono (lerp_mono (by norm_num) (by norm_num) h)
  rcases le_or_lt c2 55.4 with H3 | H3
  · rcases le_or_lt c1 12 with G | G
    · have hb1 := (aqiVal_band1 h0 G).2
      have hb2 := (aqiVal_band3 H2 H3).1
      omega
    rcases le_or_lt c1 35.4 with G2 | G2
    · have hb1 := (aqiVal_band2 G G2).2
      have hb2 := (aqiVal_band3 H2 H3).1
      omega
    · unfold aqiVal
      rw [if_neg (by linarith), if_neg (by linarith), if_pos (le_trans h H3),
        if_neg (by linarith), if_neg (by linarith), if_pos H3]
      exact jsRound_mono (lerp_mono (by norm_num) (by norm_num) h)
  rcases le_or_lt c2 150.4 with H4 | H4
  · rcases le_or_lt c1 12 with G | G
    · have hb1 := (aqiVal_band1 h0 G).2
      have hb2 := (aqiVal_band4 H3 H4).1
      omega
    rcases le_or_lt c1 35.4 with G2 | G2
    · have hb1 := (aqiVal_band2 G G2).2
      have hb2 := (aqiVal_band4 H3 H4).1
      omega
    rcases le_or_lt c1 55.4 with G3 | G3
    · have hb1 := (aqiVal_band3 G2 G3).2
      have hb2 := (aqiVal_band4 H3 H4).1
      omega
    · unfold aqiVal
      rw [if_neg (by linarith), if_neg (by linarith), if_neg (by linarith),
        if_pos (le_trans h H4), if_neg (by linarith), if_neg (by linarith),
        if_neg (by linarith), if_pos H4]
      exact jsRound_mono (lerp_mono (by norm_num) (by norm_num) h)
  rcases le_or_lt c2 250.4 with H5 | H5
  · rcases le_or_lt c1 12 with G | G
    · have hb1 := (aqiVal_band1 h0 G).2
      have hb2 := (aqiVal_band5 H4 H5).1
      omega
    rcases le_or_lt c1 35.4 with G2 | G2
    · have hb1 := (aqiVal_band2 G G2).2
      have hb2 := (aqiVal_band5 H4 H5).1
      omega
    rcases le_or_lt c1 55.4 with G3 | G3
    · have hb1 := (aqiVal_band3 G2 G3).2
      have hb2 := (aqiVal_band5 H4 H5).1
      omega
    rcases le_or_lt c1 150.4 with G4 | G4
    · have hb1 := (aqiVal_band4 G3 G4).2
      have hb2 := (aqiVal_band5 H4 H5).1
      omega
    · unfold aqiVal
      rw [if_neg (by linarith), if_neg (by linarith), if_neg (by linarith),
        if_neg (by linarith), if_pos (le_trans h H5), if_neg (by linarith),
        if_neg (by linarith), if_neg (by linarith), if_neg (by linarith), if_pos H5]
      exact jsRound_mono (lerp_mono (by norm_num) (by norm_num) h)
  rcases le_or_lt c2 500.4 with H6 | H6
  · rcases le_or_lt c1 12 with G | G
    · have hb1 := (aqiVal_band1 h0 G).2
      have hb2 := (aqiVal_band6 H5 H6).1
      omega
    rcases le_or_lt c1 35.4 with G2 | G2
    · have hb1 := (aqiVal_band2 G G2).2
      have hb2 := (aqiVal_band6 H5 H6).1
      omega
    rcases le_or_lt c1 55.4 with G3 | G3
    · have hb1 := (aqiVal_band3 G2 G3).2
      have hb2 := (aqiVal_band6 H5 H6).1
      omega
    rcases le_or_lt c1 150.4 with G4 | G4
    · have hb1 := (aqiVal_band4 G3 G4).2
      have hb2 := (aqiVal_band6 H5 H6).1
      omega
    rcases le_or_lt c1 250.4 with G5 | G5
    · have hb1 := (aqiVal_band5 G4 G5).2
      have hb2 := (aqiVal_band6 H5 H6).1
      omega
    · unfold aqiVal
      rw [if_neg (by linarith), if_neg (by linarith), if_neg (by linarith),
        if_neg (by linarith), if_neg (by linarith), if_pos (le_trans h H6),
        if_neg (by linarith), if_neg (by linarith), if_neg (by linarith),
        if_neg (by linarith), if_neg (by linarith), if_pos H6]
      exact jsRound_mono (lerp_mono (by norm_num) (by norm_num) h)
  · rw [aqiVal_clamp H6]
    exact (aqiVal_bounds h0).2

/-! ### Claim theorems -/

/-- Claim C1: for every concentration `c` inside one of the six defined breakpoint
bands, `pm25ToAqi` returns exactly the rounding of
`(indexHi - indexLo) / (concHi - concLo) * (c - concLo) + indexLo` computed
with that band's quadruple (rounding as the code's `Math.round`). -/
theorem pm25ToAqi_band_formula (k : Fin 6) (c : ℚ)
    (hlo : concLo k ≤ c) (hhi : c ≤ concHi k) :
    pm25ToAqi (.val c) =
      some (jsRound ((((idxHi k : ℚ) - (idxLo k : ℚ)) / (concHi k - concLo k))
        * (c - concLo k) + (idxLo k : ℚ))) := by
  show some (aqiVal c) =
    some (jsRound (lerp (concLo k) (concHi k) (idxLo k) (idxHi k) c))
  fin_cases k <;> simp only [concLo, concHi, idxLo, idxHi] at hlo hhi ⊢ <;> unfold aqiVal
  · rw [if_pos hhi]
    norm_num
  · rw [if_neg (by linarith), if_pos hhi]
    norm_num
  · rw [if_neg (by linarith), if_neg (by linarith), if_pos hhi]
    norm_num
  · rw [if_neg (by linarith), if_neg (by linarith), if_neg (by linarith), if_pos hhi]
    norm_num
  · rw [if_neg (by linarith), if_neg (by linarith), if_neg (by linarith),
      if_neg (by linarith), if_pos hhi]
    norm_num
  · rw [if_neg (by linarith), if_neg (by linarith), if_neg (by linarith),
      if_neg (by linarith), if_neg (by linarith), if_pos hhi]
    norm_num

/-- Witness for C1: inside band 1 (12.1-35.4 → 51-100), at c = 20,
the interpolation formula gives the answer. -/
theorem pm25ToAqi_band_formula_witness :
    pm25ToAqi (.val 20) =
      some (jsRound ((((idxHi 1 : ℚ) - (idxLo 1 : ℚ)) / (concHi 1 - concLo 1))
        * (20 - concLo 1) + (idxLo 1 : ℚ))) :=
  pm25ToAqi_band_formula 1 20 (by norm_num [concLo]) (by norm_num [concHi])

/-- Claim C2 (amended): for every input that is absent (null or undefined) or whose
`Number` conversion is NaN, `pm25ToAqi` yields `null`; a parseable negative
number, however, is not rejected (see the counterexample). -/
theorem pm25ToAqi_absent_nan (i : PmInput) (h : i = .absent ∨ i = .nan) :
    pm25ToAqi i = none := by
  rcases h with h | h <;> subst h <;> rfl

/-- Witness for C2: the absent input yields the absence marker. -/
theorem pm25ToAqi_absent_nan_witness : pm25ToAqi .absent = none :=
  pm25ToAqi_absent_nan .absent (Or.inl rfl)

/-- Counterexample for C2 as stated: `-5` is not parseable as a
non-negative real number, yet `pm25ToAqi` does not yield the absence
marker: it interpolates in the lowest band and returns `-21`. -/
theorem pm25ToAqi_negative_counterexample :
    (-5 : ℚ) < 0 ∧ pm25ToAqi (.val (-5)) = some (-21) ∧
      pm25ToAqi (.val (-5)) ≠ none := by
  refine ⟨by norm_num, ?_, by simp [pm25ToAqi]⟩
  show some (aqiVal (-5)) = some (-21)
  norm_num [aqiVal, lerp, jsRound]

/-- Claim C3: for every non-negative concentration, `pm25ToAqi` returns an integer
in [0, 500]; for every concentration strictly above 500.4 it returns
exactly 500. -/
theorem pm25ToAqi_range (c : ℚ) (h0 : 0 ≤ c) :
    pm25ToAqi (.val c) = some (aqiVal c) ∧ 0 ≤ aqiVal c ∧ aqiVal c ≤ 500 ∧
      ((500.4 : ℚ) < c → pm25ToAqi (.val c) = some 500) := by
  refine ⟨rfl, (aqiVal_bounds h0).1, (aqiVal_bounds h0).2, fun h => ?_⟩
  show some (aqiVal c) = some 500
  rw [aqiVal_clamp h]

/-- Witness for C3: at c = 600 the hypotheses hold and the clamp fires. -/
theorem pm25ToAqi_range_witness : pm25ToAqi (.val 600) = some 500 :=
  (pm25ToAqi_range 600 (by norm_num)).2.2.2 (by norm_num)

/-- Claim C4: monotonicity of the derivation: for non-negative c1 < c2 the
derived indices satisfy index(c1) ≤ index(c2). -/
theorem pm25ToAqi_mono (c1 c2 : ℚ) (h0 : 0 ≤ c1) (h : c1 < c2) :
    pm25ToAqi (.val c1) = some (aqiVal c1) ∧
      pm25ToAqi (.val c2) = some (aqiVal c2) ∧ aqiVal c1 ≤ aqiVal c2 :=
  ⟨rfl, rfl, aqiVal_mono h0 h.le⟩

/-- Witness for C4: 3 < 20 and the derived indices are ordered. -/
theorem pm25ToAqi_mono_witness :
    pm25ToAqi (.val 3) = some (aqiVal 3) ∧
      pm25ToAqi (.val 20) = some (aqiVal 20) ∧ aqiVal 3 ≤ aqiVal 20 :=
  pm25ToAqi_mono 3 20 (by norm_num) (by norm_num)

/-- Claim C5: boundary exactness: 12.0 → 50, 12.1 → 51, 35.4 → 100,
500.4 → 500, and 600 → 500 (clamped). -/
theorem pm25ToAqi_boundaries :
    pm25ToAqi (.val 12) = some 50 ∧ pm25ToAqi (.val 12.1) = some 51 ∧
      pm25ToAqi (.val 35.4) = some 100 ∧ pm25ToAqi (.val 500.4) = some 500 ∧
      pm25ToAqi (.val 600) = some 500 := by
  refine ⟨?_, ?_, ?_, ?_, ?_⟩ <;>
    · show some (aqiVal _) = some _
      norm_num [aqiVal, lerp, jsRound]

/-- Claim C6: for every concentration in a defined band, the derived index falls
within that band's index range, inclusive on both ends. -/
theorem pm25ToAqi_band_range (k : Fin 6) (c : ℚ)
    (hlo : concLo k ≤ c) (hhi : c ≤ concHi k) :
    pm25ToAqi (.val c) = some (aqiVal c) ∧
      idxLo k ≤ aqiVal c ∧ aqiVal c ≤ idxHi k := by
  refine ⟨rfl, ?_⟩
  fin_cases k <;> simp only [concLo, concHi, idxLo, idxHi] at hlo hhi ⊢
  · exact aqiVal_band1 hlo hhi
  · exact aqiVal_band2 (by linarith) hhi
  · exact aqiVal_band3 (by linarith) hhi
  · exact aqiVal_band4 (by linarith) hhi
  · exact aqiVal_band5 (by linarith) hhi
  · exact aqiVal_band6 (by linarith) hhi

/-- Witness for C6: c = 20 lies in band 1 (12.1-35.4) and its index lies
in [51, 100]. -/
theorem pm25ToAqi_band_range_witness :
    pm25ToAqi (.val 20) = some (aqiVal 20) ∧
      idxLo 1 ≤ aqiVal 20 ∧ aqiVal 20 ≤ idxHi 1 :=
  pm25ToAqi_band_range 1 20 (by norm_num [concLo]) (by norm_num [concHi])

/-! ### Severity classification lemmas -/

theorem severityBand_unique (n : ℤ) (j k : Fin 6)
    (hj : idxLo j ≤ n ∧ n ≤ idxHi j) (hk : idxLo k ≤ n ∧ n ≤ idxHi k) : j = k := by
  fin_cases j <;> fin_cases k <;> simp_all [idxLo, idxHi] <;> omega

theorem stationPanel_label_of_band (n : ℤ) (k : Fin 6)
    (hlo : idxLo k ≤ n) (hhi : n ≤ idxHi k) :
    StationPanel.getAqiLabel (.num (n : ℚ)) = severityName k := by
  fin_cases k <;> simp only [idxLo, idxHi] at hlo hhi
  · have a1 : (n : ℚ) ≤ 50 := by exact_mod_cast hhi
    simp [StationPanel.getAqiLabel, jsLe, a1, severityName]
  · have a1 : ¬ ((n : ℚ) ≤ 50) := by exact_mod_cast not_le.mpr (show (50:ℤ) < n by omega)
    have a2 : (n : ℚ) ≤ 100 := by exact_mod_cast hhi
    simp [StationPanel.getAqiLabel, jsLe, a1, a2, severityName]
  · have a1 : ¬ ((n : ℚ) ≤ 50) := by exact_mod_cast not_le.mpr (show (50:ℤ) < n by omega)
    have a2 : ¬ ((n : ℚ) ≤ 100) := by exact_mod_cast not_le.mpr (show (100:ℤ) < n by omega)
    have a3 : (n : ℚ) ≤ 150 := by exact_mod_cast hhi
    simp [StationPanel.getAqiLabel, jsLe, a1, a2, a3, severityName]
  · have a1 : ¬ ((n : ℚ) ≤ 50) := by exact_mod_cast not_le.mpr (show (50:ℤ) < n by omega)
    have a2 : ¬ ((n : ℚ) ≤ 100) := by exact_mod_cast not_le.mpr (show (100:ℤ) < n by omega)
    have a3 : ¬ ((n : ℚ) ≤ 150) := by exact_mod_cast not_le.mpr (show (150:ℤ) < n by omega)
    have a4 : (n : ℚ) ≤ 200 := by exact_mod_cast hhi
    simp [StationPanel.getAqiLabel, jsLe, a1, a2, a3, a4, severityName]
  · have a1 : ¬ ((n : ℚ) ≤ 50) := by exact_mod_cast not_le.mpr (show (50:ℤ) < n by omega)
    have a2 : ¬ ((n : ℚ) ≤ 100) := by exact_mod_cast not_le.mpr (show (100:ℤ) < n by omega)
    have a3 : ¬ ((n : ℚ) ≤ 150) := by exact_mod_cast not_le.mpr (show (150:ℤ) < n by omega)
    have a4 : ¬ ((n : ℚ) ≤ 200) := by exact_mod_cast not_le.mpr (show (200:ℤ) < n by omega)
    have a5 : (n : ℚ) ≤ 300 := by exact_mod_cast hhi
    simp [StationPanel.getAqiLabel, jsLe, a1, a2, a3, a4, a5, severityName]
  · have a1 : ¬ ((n : ℚ) ≤ 50) := by exact_mod_cast not_le.mpr (show (50:ℤ) < n by omega)
    have a2 : ¬ ((n : ℚ) ≤ 100) := by exact_mod_cast not_le.mpr (show (100:ℤ) < n by omega)
    have a3 : ¬ ((n : ℚ) ≤ 150) := by exact_mod_cast not_le.mpr (show (150:ℤ) < n by omega)
    have a4 : ¬ ((n : ℚ) ≤ 200) := by exact_mod_cast not_le.mpr (show (200:ℤ) < n by omega)
    have a5 : ¬ ((n : ℚ) ≤ 300) := by exact_mod_cast not_le.mpr (show (300:ℤ) < n by omega)
    simp [StationPanel.getAqiLabel, jsLe, a1, a2, a3, a4, a5, severityName]

/-- Claim C7: classification totality: every integer index in [0, 500] lies in
exactly one of the six severity bands, the label function returns that
band's category name, and the MapComponent copy of `getAqiLabel` agrees on
integer inputs. -/
theorem getAqiLabel_total (n : ℤ) (h0 : 0 ≤ n) (h500 : n ≤ 500) :
    (∃! k : Fin 6, idxLo k ≤ n ∧ n ≤ idxHi k) ∧
    (∀ k : Fin 6, idxLo k ≤ n → n ≤ idxHi k →
      StationPanel.getAqiLabel (.num (n : ℚ)) = severityName k) ∧
    MapComponent.getAqiLabel (.num (n : ℚ)) = StationPanel.getAqiLabel (.num (n : ℚ)) := by
  refine ⟨?_, fun k hlo hhi => stationPanel_label_of_band n k hlo hhi, ?_⟩
  · have hex : ∃ k : Fin 6, idxLo k ≤ n ∧ n ≤ idxHi k := by
      rcases le_or_lt n 50 with h | h
      · exact ⟨0, by constructor <;> simp [idxLo, idxHi] <;> omega⟩
      rcases le_or_lt n 100 with h2 | h2
      · exact ⟨1, by constructor <;> simp [idxLo, idxHi] <;> omega⟩
      rcases le_or_lt n 150 with h3 | h3
      · exact ⟨2, by constructor <;> simp [idxLo, idxHi] <;> omega⟩
      rcases le_or_lt n 200 with h4 | h4
      · exact ⟨3, by constructor <;> simp [idxLo, idxHi] <;> omega⟩
      rcases le_or_lt n 300 with h5 | h5
      · exact ⟨4, by constructor <;> simp [idxLo, idxHi] <;> omega⟩
      · exact ⟨5, by constructor <;> simp [idxLo, idxHi] <;> omega⟩
    obtain ⟨k, hk⟩ := hex
    exact ⟨k, hk, fun j hj => severityBand_unique n j k hj hk⟩
  · simp [MapComponent.getAqiLabel, StationPanel.getAqiLabel]

/-- Witness for C7: at index 123 there is exactly one band (band 2,
Unhealthy for Sensitive Groups) and the labels agree. -/
theorem getAqiLabel_total_witness :
    (∃! k : Fin 6, idxLo k ≤ (123 : ℤ) ∧ (123 : ℤ) ≤ idxHi k) ∧
    (∀ k : Fin 6, idxLo k ≤ (123 : ℤ) → (123 : ℤ) ≤ idxHi k →
      StationPanel.getAqiLabel (.num ((123 : ℤ) : ℚ)) = severityName k) ∧
    MapComponent.getAqiLabel (.num ((123 : ℤ) : ℚ)) =
      StationPanel.getAqiLabel (.num ((123 : ℤ) : ℚ)) :=
  getAqiLabel_total 123 (by norm_num) (by norm_num)

/-- Claim C8 (amended): colour and category agree under the fixed pairing for
every integer and for `null` in all three component copies, and for
`undefined` in the Sidebar and StationPanel copies; the MapComponent copy
disagrees at `undefined` (see the counterexample). -/
theorem color_label_agree :
    (∀ n : ℤ, MapComponent.getAqiColor (.num (n : ℚ)) =
      pairedColor (MapComponent.getAqiLabel (.num (n : ℚ)))) ∧
    MapComponent.getAqiColor .null = pairedColor (MapComponent.getAqiLabel .null) ∧
    (∀ a : AqiInput, Sidebar.getAqiHex a = pairedColor (Sidebar.getAqiLabel a)) ∧
    (∀ a : AqiInput, StationPanel.getAqiColor a = pairedColor (StationPanel.getAqiLabel a)) := by
  refine ⟨?_, rfl, ?_, ?_⟩
  · intro n
    simp only [MapComponent.getAqiColor, MapComponent.getAqiLabel]
    simp only [reduceCtorEq, or_self, if_false]
    split_ifs <;> rfl
  · intro a
    cases a with
    | null => rfl
    | undefined => rfl
    | num q =>
      simp only [Sidebar.getAqiHex, Sidebar.getAqiLabel]
      simp only [reduceCtorEq, or_self, if_false]
      split_ifs <;> rfl
  · intro a
    cases a with
    | null => rfl
    | undefined => rfl
    | num q =>
      simp only [StationPanel.getAqiColor, StationPanel.getAqiLabel]
      simp only [reduceCtorEq, or_self, if_false]
      split_ifs <;> rfl

/-- Counterexample for C8 as stated: on input `undefined`, MapComponent's
`getAqiColor` returns the No-Data gray while MapComponent's `getAqiLabel`
returns "Hazardous" (its guard checks only `null`, and `undefined <= k` is
false in JavaScript), whose paired colour is the maroon `#9f1239`. -/
theorem color_label_disagree_undefined :
    MapComponent.getAqiColor .undefined ≠
      pairedColor (MapComponent.getAqiLabel .undefined) ∧
    MapComponent.getAqiLabel .undefined = "Hazardous" ∧
    MapComponent.getAqiColor .undefined = "#6b7280" := by
  refine ⟨?_, ?_, rfl⟩
  · simp [MapComponent.getAqiColor, MapComponent.getAqiLabel, jsLe, pairedColor]
  · simp [MapComponent.getAqiLabel, jsLe]

/-- Claim C9 (amended): a numeric upstream index is always used as-is and PM2.5
derivation skipped, in both endpoints; the station-detail endpoint invokes
`pm25ToAqi` only when the upstream index is '-', null or undefined AND PM2.5
is present; the map endpoint invokes it whenever both the map payload index
and the feed index are non-numeric, even when PM2.5 is absent (see the
counterexample). -/
theorem upstreamAqi_preferred :
    (∀ (q : ℚ) (pm : Option ℚ), resolveDetailAqi (.num q) pm = (some q, false)) ∧
    (∀ (daqi : UpstreamAqi) (pm : Option ℚ), (resolveDetailAqi daqi pm).2 = true →
      (daqi = .dash ∨ daqi = .null ∨ daqi = .undefined) ∧ pm ≠ none) ∧
    (∀ (n : ℤ) (fo : Bool) (fa : UpstreamAqi) (pm : Option ℚ),
      resolveMapAqi (some n) fo fa pm = (some (n : ℚ), false)) ∧
    (∀ (q : ℚ) (pm : Option ℚ), resolveMapAqi none true (.num q) pm = (some q, false)) ∧
    (∀ (m : Option ℤ) (fo : Bool) (fa : UpstreamAqi) (pm : Option ℚ),
      (resolveMapAqi m fo fa pm).2 = true →
        m = none ∧ fo = true ∧ ∀ q : ℚ, fa ≠ .num q) := by
  refine ⟨?_, ?_, ?_, ?_, ?_⟩
  · intro q pm
    simp [resolveDetailAqi]
  · intro daqi pm h
    cases daqi <;> cases pm <;> simp_all [resolveDetailAqi, pm25ToAqi, encodePm]
  · intro n fo fa pm
    simp [resolveMapAqi]
  · intro q pm
    simp [resolveMapAqi]
  · intro m fo fa pm h
    cases m <;> cases fo <;> cases fa <;> cases pm <;>
      simp_all [resolveMapAqi, pm25ToAqi, encodePm]

/-- Witness for C9 (amended): with upstream index '-' and PM2.5 = 10, the
detail endpoint invokes the fallback, so the invocation condition holds. -/
theorem upstreamAqi_preferred_witness :
    (UpstreamAqi.dash = UpstreamAqi.dash ∨ UpstreamAqi.dash = UpstreamAqi.null ∨
      UpstreamAqi.dash = UpstreamAqi.undefined) ∧ (some (10 : ℚ) ≠ none) :=
  upstreamAqi_preferred.2.1 .dash (some 10)
    (by simp [resolveDetailAqi, pm25ToAqi, encodePm])

/-- Counterexample for C9 as stated: in the map endpoint, when the map
payload index and the feed index are both non-numeric and PM2.5 is absent,
`pm25ToAqi` is still invoked (on null); the claim's "only when ... PM2.5 is
present" fails. -/
theorem pm25ToAqi_invoked_without_pm25 :
    ¬ (∀ (m : Option ℤ) (fo : Bool) (fa : UpstreamAqi) (pm : Option ℚ),
        (resolveMapAqi m fo fa pm).2 = true → pm ≠ none) := by
  intro hclaim
  exact hclaim none true .dash none
    (by simp [resolveMapAqi, pm25ToAqi, encodePm]) rfl

/-- Claim C10: every station record of the `/api/aqi` transform carries a colour
consistent with its aqi: the colour is the gray `#6b7280` iff aqi is null,
otherwise it is `getAqiColor(aqi)`; the unguarded server `getAqiColor`
would return green on null (null compares as 0), but is never applied to
null by the transform. -/
theorem stationColor_consistent :
    (∀ aqi : Option ℚ, (Server.stationColor aqi = "#6b7280" ↔ aqi = none)) ∧
    (∀ q : ℚ, Server.stationColor (some q) = Server.getAqiColor (.num q)) ∧
    Server.getAqiColor .null = "#22c55e" := by
  refine ⟨?_, fun q => rfl, ?_⟩
  · intro aqi
    cases aqi with
    | none => simp [Server.stationColor]
    | some q =>
      simp only [Server.stationColor, reduceCtorEq, iff_false]
      simp only [Server.getAqiColor]
      split_ifs <;> simp
  · norm_num [Server.getAqiColor, jsLe]
